import Mathlib

/-!
Shallow embedding of the join-request bot in `bot.py` (class `TelegramBot`).

Python dictionaries are modelled as association lists (`List (κ × α)`)
with insertion order preserved (as CPython dicts do); Python sets of
strings/ids as duplicate-free lists; `datetime.now()` values as abstract
`Nat` timestamps supplied by the caller.  The platform collaborator
(the Telegram API) is modelled by explicit outcome parameters: a `Bool`
for whether `approve_chat_join_request` succeeds, a `WelcomeEnv` record
for the permission-check / send outcomes inside `send_welcome_message`,
and, for report distribution, a map from chat id to the list of non-bot
admin ids a stats message is successfully delivered to.
-/

namespace Minibot

/-! ### Association-list and set helpers (model of Python dict / set) -/

section AssocHelpers

variable {κ : Type} {α : Type} [DecidableEq κ]

/-- `d[k]` lookup on an association list (first entry with the key). -/
def lookupKey (k : κ) : List (κ × α) → Option α
  | [] => none
  | p :: rest => if p.1 = k then some p.2 else lookupKey k rest

/-- `d[k] = v` assignment: overwrite in place, or append a new entry. -/
def setEntry (k : κ) (v : α) : List (κ × α) → List (κ × α)
  | [] => [(k, v)]
  | p :: rest => if p.1 = k then (p.1, v) :: rest else p :: setEntry k v rest

/-- In-place mutation of the entry at key `k` (no-op when absent). -/
def updateEntry (k : κ) (f : α → α) : List (κ × α) → List (κ × α)
  | [] => []
  | p :: rest => if p.1 = k then (p.1, f p.2) :: rest else p :: updateEntry k f rest

/-- `d.pop(k, None)`: remove the entry with key `k` when present. -/
def removeKey (k : κ) : List (κ × α) → List (κ × α)
  | [] => []
  | p :: rest => if p.1 = k then rest else p :: removeKey k rest

end AssocHelpers

section SetHelpers

variable {α : Type} [DecidableEq α]

/-- `s.remove(x)` / `s.discard(x)` on a set modelled as a list. -/
def removeFirst (x : α) : List α → List α
  | [] => []
  | y :: rest => if y = x then rest else y :: removeFirst x rest

/-- `s.add(x)` on a set modelled as a duplicate-free list. -/
def addToSet (x : α) (l : List α) : List α :=
  if x ∈ l then l else l ++ [x]

/-- Number of scheduled jobs whose second component (chat id) is `c`. -/
def countKey2 {β : Type} (c : α) : List (β × α) → Nat
  | [] => 0
  | p :: rest => (if p.2 = c then 1 else 0) + countKey2 c rest

end SetHelpers

/-- Sum of a numeric field over the values of an association list. -/
def sumF {κ α : Type} (f : α → Nat) (l : List (κ × α)) : Nat :=
  (l.map (fun p => f p.2)).sum

/-! ### Data model -/

/-- Telegram chat types (`telegram.constants.ChatType`). -/
inductive ChatType
  | group
  | supergroup
  | channel
  | privateChat
  | sender
deriving DecidableEq, Repr

/-- Membership statuses (`telegram.ChatMember` constants). -/
inductive MemberStatus
  | owner
  | administrator
  | member
  | restricted
  | leftChat
  | kicked
deriving DecidableEq, Repr

/-- Snapshot of `request.from_user` stored with a pending request. -/
structure UserData where
  id : Int
  first_name : String
  last_name : Option String
  username : Option String
deriving DecidableEq, Repr

/-- Value of `self.pending_requests[user_id]` (bot.py lines 88-97). -/
structure PendingEntry where
  chat_id : String
  request_time : Nat
  user_data : UserData
deriving DecidableEq, Repr

/-- Value of `self.channel_stats[chat_id]` (bot.py lines 267-277). -/
structure ChatStats where
  title : String
  hourly_requests : Nat
  hourly_left : Nat
  daily_requests : Nat
  daily_left : Nat
  total_requests : Nat
  total_approved : Nat
  total_left : Nat
  last_activity : Nat
deriving DecidableEq, Repr

/-- `self.global_stats` (bot.py lines 34-42). -/
structure GlobalStats where
  hourly_requests : Nat
  hourly_left : Nat
  daily_requests : Nat
  daily_left : Nat
  total_requests : Nat
  total_approved : Nat
  total_left : Nat
deriving DecidableEq, Repr

/-- The mutable state of `TelegramBot`.  `timers` is the multiset of
`run_once` auto-approval jobs currently scheduled in the job queue,
each carrying its `data={user_id, chat_id}` payload. -/
structure BotState where
  pending_requests : List (String × PendingEntry)
  approved_users : List String
  channel_stats : List (String × ChatStats)
  tracked_groups : List String
  global_stats : GlobalStats
  timers : List (String × String)
deriving DecidableEq, Repr

def initGlobalStats : GlobalStats :=
  { hourly_requests := 0, hourly_left := 0, daily_requests := 0,
    daily_left := 0, total_requests := 0, total_approved := 0, total_left := 0 }

/-- State right after `__init__` (before any snapshot load). -/
def initState : BotState :=
  { pending_requests := [], approved_users := [], channel_stats := [],
    tracked_groups := [], global_stats := initGlobalStats, timers := [] }

/-- The seven counter keys accepted by `update_channel_stats`
(all of which are also keys of `global_stats`). -/
inductive StatKey
  | hourly_requests
  | hourly_left
  | daily_requests
  | daily_left
  | total_requests
  | total_approved
  | total_left
deriving DecidableEq, Repr

/-- `stats[stat_type] += 1` plus the `last_activity` refresh
(bot.py lines 284-285). -/
def bumpChat (k : StatKey) (now : Nat) (s : ChatStats) : ChatStats :=
  match k with
  | .hourly_requests => { s with hourly_requests := s.hourly_requests + 1, last_activity := now }
  | .hourly_left => { s with hourly_left := s.hourly_left + 1, last_activity := now }
  | .daily_requests => { s with daily_requests := s.daily_requests + 1, last_activity := now }
  | .daily_left => { s with daily_left := s.daily_left + 1, last_activity := now }
  | .total_requests => { s with total_requests := s.total_requests + 1, last_activity := now }
  | .total_approved => { s with total_approved := s.total_approved + 1, last_activity := now }
  | .total_left => { s with total_left := s.total_left + 1, last_activity := now }

/-- `self.global_stats[stat_type] += 1` (bot.py line 289). -/
def bumpGlobal (k : StatKey) (g : GlobalStats) : GlobalStats :=
  match k with
  | .hourly_requests => { g with hourly_requests := g.hourly_requests + 1 }
  | .hourly_left => { g with hourly_left := g.hourly_left + 1 }
  | .daily_requests => { g with daily_requests := g.daily_requests + 1 }
  | .daily_left => { g with daily_left := g.daily_left + 1 }
  | .total_requests => { g with total_requests := g.total_requests + 1 }
  | .total_approved => { g with total_approved := g.total_approved + 1 }
  | .total_left => { g with total_left := g.total_left + 1 }

/-! ### Handlers (translated from `bot.py`) -/

/-- Fresh statistics record created by `get_or_create_channel_stats`
(bot.py lines 267-277). -/
def newChatStats (title : String) (now : Nat) : ChatStats :=
  { title := title, hourly_requests := 0, hourly_left := 0,
    daily_requests := 0, daily_left := 0, total_requests := 0,
    total_approved := 0, total_left := 0, last_activity := now }

/-- `get_or_create_channel_stats` (bot.py lines 264-279). -/
def get_or_create_channel_stats (chat_id chat_title : String) (now : Nat)
    (st : BotState) : BotState :=
  if (lookupKey chat_id st.channel_stats).isSome then st
  else { st with channel_stats := st.channel_stats ++ [(chat_id, newChatStats chat_title now)] }

/-- `update_channel_stats` (bot.py lines 281-289): increments the given
counter for the chat when the chat has a stats entry, refreshes
`last_activity`, and mirrors the increment into `global_stats`
(every `StatKey` is a key of `global_stats`, so the inner
`if stat_type in self.global_stats` guard always passes). -/
def update_channel_stats (chat_id : String) (k : StatKey) (now : Nat)
    (st : BotState) : BotState :=
  if (lookupKey chat_id st.channel_stats).isSome then
    { st with
      channel_stats := updateEntry chat_id (bumpChat k now) st.channel_stats,
      global_stats := bumpGlobal k st.global_stats }
  else st

/-- Chat types accepted by `handle_chat_join_request` (bot.py line 74). -/
def supportedChatType : ChatType → Bool
  | .group => true
  | .supergroup => true
  | .channel => true
  | _ => false

/-- `chat.title or f"Чат {chat_id}"`. -/
def chatTitleOf (title? : Option String) (chat_id : String) : String :=
  title?.getD ("Chat " ++ chat_id)

/-- `handle_chat_join_request` (bot.py lines 60-115), with a valid
`chat_join_request` payload and the job queue configured.  The admin
notification is an outbound side effect that touches no bot state and
is not modelled.  Scheduling `run_once` is modelled by appending the
job's `(user_id, chat_id)` payload to `timers`. -/
def handle_chat_join_request (user : UserData) (chat_id : String)
    (title? : Option String) (ctype : ChatType) (now : Nat)
    (st : BotState) : BotState :=
  if supportedChatType ctype then
    let user_id := toString user.id
    let chat_title := chatTitleOf title? chat_id
    let st := get_or_create_channel_stats chat_id chat_title now st
    let st := update_channel_stats chat_id .hourly_requests now st
    let st := update_channel_stats chat_id .daily_requests now st
    let st := update_channel_stats chat_id .total_requests now st
    let st := { st with tracked_groups := addToSet chat_id st.tracked_groups }
    let st := { st with
      pending_requests := setEntry user_id
        { chat_id := chat_id, request_time := now, user_data := user }
        st.pending_requests }
    { st with timers := st.timers ++ [(user_id, chat_id)] }
  else st

/-- `auto_approve_request` (bot.py lines 117-151) for a job carrying
`(user_id, chat_id)`.  `approveOk` is whether the platform call
`approve_chat_join_request` returns rather than raises.  The second
component counts platform approve invocations (0 when the job returns
early because the request is no longer pending, 1 otherwise). -/
def auto_approve_request (user_id chat_id : String) (approveOk : Bool)
    (now : Nat) (st : BotState) : BotState × Nat :=
  match lookupKey user_id st.pending_requests with
  | none => (st, 0)
  | some _ =>
    if approveOk then
      let st := { st with approved_users := addToSet user_id st.approved_users }
      let st := { st with pending_requests := removeKey user_id st.pending_requests }
      (update_channel_stats chat_id .total_approved now st, 1)
    else
      ({ st with pending_requests := removeKey user_id st.pending_requests }, 1)

/-- Outcome of one platform call inside `send_welcome_message`: the call
returns a value, raises `BadRequest` or `Forbidden` (the only exceptions
the surrounding `except` clauses at bot.py lines 202 and 222 catch), or
raises any other exception — e.g. `TimedOut` / `NetworkError` — which is
not caught there and propagates out of the whole handler. -/
inductive CallOutcome (α : Type)
  | ok (a : α)
  | badRequestOrForbidden
  | uncaughtError
deriving DecidableEq, Repr

/-- Platform outcomes inside `send_welcome_message` (bot.py lines 190-230):
`perm_check` is the `get_chat_member` call (`ok b` = returned with
`can_send_messages = b`), `formatted_send` the Markdown send, and
`fallback_send_ok` the plain-text fallback — the fallback's
`except Exception` (line 229) catches everything, so a `Bool` suffices
for it. -/
structure WelcomeEnv where
  perm_check : CallOutcome Bool
  formatted_send : CallOutcome Unit
  fallback_send_ok : Bool
deriving DecidableEq, Repr

/-- `send_welcome_message` (bot.py lines 190-230).  `some n` means the
function returned normally having delivered `n` messages (0 when the
permission check failed with a caught error or reported no send right,
or when both sends failed with caught errors); `none` means an uncaught
exception from `get_chat_member` or the Markdown send propagated out of
the function (only `BadRequest`/`Forbidden` are caught at lines 202 and
222). -/
def send_welcome_message (env : WelcomeEnv) : Option Nat :=
  match env.perm_check with
  | .uncaughtError => none
  | .badRequestOrForbidden => some 0
  | .ok false => some 0
  | .ok true =>
    match env.formatted_send with
    | .ok _ => some 1
    | .uncaughtError => none
    | .badRequestOrForbidden =>
      if env.fallback_send_ok then some 1 else some 0

def isLeaving : MemberStatus → Bool
  | .leftChat => true
  | .kicked => true
  | _ => false

def isActiveMember : MemberStatus → Bool
  | .member => true
  | .administrator => true
  | .owner => true
  | _ => false

def wasMemberish : MemberStatus → Bool
  | .member => true
  | .administrator => true
  | _ => false

/-- `handle_chat_member_update` (bot.py lines 153-188) for a valid
`chat_member` payload.  Returns the new state and the number of welcome
messages delivered.  In the became-active branch the user is removed
from `approved_users` (line 175) only when `send_welcome_message`
returns: when it raises an uncaught exception (`send_welcome_message env
= none`) the exception propagates out of the handler before line 175, so
the mutations already performed stand (the chat was added to
`tracked_groups` at line 166) but the marker is kept and no message was
delivered. -/
def handle_chat_member_update (user : UserData) (chat_id : String)
    (title? : Option String) (old_status new_status : MemberStatus)
    (env : WelcomeEnv) (now : Nat) (st : BotState) : BotState × Nat :=
  let user_id := toString user.id
  let st := { st with tracked_groups := addToSet chat_id st.tracked_groups }
  if isLeaving old_status && isActiveMember new_status then
    if user_id ∈ st.approved_users then
      match send_welcome_message env with
      | none => (st, 0)
      | some msgs =>
        ({ st with approved_users := removeFirst user_id st.approved_users },
         msgs)
    else (st, 0)
  else if wasMemberish old_status && isLeaving new_status then
    let chat_title := chatTitleOf title? chat_id
    let st := get_or_create_channel_stats chat_id chat_title now st
    let st := update_channel_stats chat_id .hourly_left now st
    let st := update_channel_stats chat_id .daily_left now st
    (update_channel_stats chat_id .total_left now st, 0)
  else (st, 0)

/-- Rolling-hourly reset applied to one chat (bot.py lines 334-336). -/
def resetHourly (s : ChatStats) : ChatStats :=
  { s with hourly_requests := 0, hourly_left := 0 }

/-- Rolling-period reset applied to one chat (bot.py lines 389-391). -/
def resetDaily (s : ChatStats) : ChatStats :=
  { s with daily_requests := 0, daily_left := 0 }

/-- The aggregate numbers of the hourly report message. -/
structure HourlyReport where
  requests : Nat
  leavers : Nat
deriving DecidableEq, Repr

/-- The aggregate numbers of the 8-hour report message. -/
structure DailyReport where
  daily_requests : Nat
  daily_left : Nat
  approved : Nat
  requests : Nat
  leavers : Nat
deriving DecidableEq, Repr

/-- `send_hourly_stats` (bot.py lines 293-338).  Returns the new state
and the report handed to `send_stats_to_admins`; `none` when the report
is suppressed (in which case the function returns before resetting). -/
def send_hourly_stats (st : BotState) : BotState × Option HourlyReport :=
  let total_requests := sumF ChatStats.hourly_requests st.channel_stats
  let total_left := sumF ChatStats.hourly_left st.channel_stats
  if total_requests = 0 ∧ total_left = 0 then (st, none)
  else
    ({ st with
        channel_stats := st.channel_stats.map (fun p => (p.1, resetHourly p.2)),
        global_stats := { st.global_stats with hourly_requests := 0, hourly_left := 0 } },
     some { requests := total_requests, leavers := total_left })

/-- `send_daily_stats` (bot.py lines 340-393).  There is no suppression
check: the report is always produced and handed to
`send_stats_to_admins`, then the daily window is reset. -/
def send_daily_stats (st : BotState) : BotState × DailyReport :=
  ({ st with
      channel_stats := st.channel_stats.map (fun p => (p.1, resetDaily p.2)),
      global_stats := { st.global_stats with daily_requests := 0, daily_left := 0 } },
   { daily_requests := sumF ChatStats.daily_requests st.channel_stats,
     daily_left := sumF ChatStats.daily_left st.channel_stats,
     approved := sumF ChatStats.total_approved st.channel_stats,
     requests := sumF ChatStats.total_requests st.channel_stats,
     leavers := sumF ChatStats.total_left st.channel_stats })

/-- One chat's worth of deliveries inside `send_stats_to_admins`:
deliver to each admin not yet served, threading the `sent_to_admins`
dedup set.  Returns the ids delivered to in this chat and the grown set. -/
def deliverChatAdmins (sent : List Int) : List Int → List Int × List Int
  | [] => ([], sent)
  | a :: rest =>
    if a ∈ sent then deliverChatAdmins sent rest
    else
      let r := deliverChatAdmins (a :: sent) rest
      (a :: r.1, r.2)

/-- Fan-out loop of `send_stats_to_admins` (bot.py lines 395-440) over
the tracked chats.  `env` maps each accessible chat id to the list of
its non-bot admin ids to whom a send succeeds (a chat absent from `env`
is inaccessible / skipped).  Returns the admin ids that receive the
message, in delivery order. -/
def sendStatsAux (env : List (String × List Int)) :
    List String → List Int → List Int
  | [], _ => []
  | c :: rest, sent =>
    match lookupKey c env with
    | none => sendStatsAux env rest sent
    | some admins =>
      let r := deliverChatAdmins sent admins
      r.1 ++ sendStatsAux env rest r.2

/-- `send_stats_to_admins`: recipients of one stats message. -/
def send_stats_to_admins (env : List (String × List Int))
    (tracked : List String) : List Int :=
  sendStatsAux env tracked []

/-- Outbound messages produced by one hourly-report trigger: zero when
the report is suppressed, otherwise one message per recipient. -/
def hourlyOutbound (env : List (String × List Int)) (st : BotState) : Nat :=
  match (send_hourly_stats st).2 with
  | none => 0
  | some _ => (send_stats_to_admins env st.tracked_groups).length

/-- Outbound messages produced by one 8-hour-report trigger: the report
is always handed to `send_stats_to_admins`. -/
def dailyOutbound (env : List (String × List Int)) (st : BotState) : Nat :=
  (send_stats_to_admins env st.tracked_groups).length

/-! ### Snapshot loading (`load_stats_from_file`, bot.py lines 466-489)

The JSON snapshot is modelled after parsing: every field that the code
reads with `dict.get` is an `Option`.  `last_activity` is modelled as
`Option (Option Nat)`: `none` = key absent, `some none` = a string
`datetime.fromisoformat` rejects, `some (some t)` = a valid timestamp. -/

structure RawGlobalStats where
  hourly_requests : Option Int
  hourly_left : Option Int
  daily_requests : Option Int
  daily_left : Option Int
  total_requests : Option Int
  total_approved : Option Int
  total_left : Option Int
deriving DecidableEq, Repr

structure RawChatStats where
  title : Option String
  hourly_requests : Option Int
  hourly_left : Option Int
  daily_requests : Option Int
  daily_left : Option Int
  total_requests : Option Int
  total_approved : Option Int
  total_left : Option Int
  last_activity : Option (Option Nat)
deriving DecidableEq, Repr

structure RawSnapshot where
  channel_stats : Option (List (String × RawChatStats))
  global_stats : Option RawGlobalStats
  tracked_groups : Option (List String)
deriving DecidableEq, Repr

/-- The complete default `global_stats` dict built in `__init__`. -/
def defaultRawGlobalStats : RawGlobalStats :=
  { hourly_requests := some 0, hourly_left := some 0, daily_requests := some 0,
    daily_left := some 0, total_requests := some 0, total_approved := some 0,
    total_left := some 0 }

/-- The store fields `load_stats_from_file` assigns, as they stand in
memory (per-chat entries keep whatever fields the snapshot had). -/
structure LoadedStore where
  channel_stats : List (String × RawChatStats)
  global_stats : RawGlobalStats
  tracked_groups : List String
deriving DecidableEq, Repr

/-- Store state at `__init__`, before `load_stats_from_file` runs. -/
def initLoadedStore : LoadedStore :=
  { channel_stats := [], global_stats := defaultRawGlobalStats, tracked_groups := [] }

/-- The only per-entry fix-up the loader applies (bot.py lines 478-482):
an unparseable `last_activity` string is replaced by `datetime.now()`;
every other field is kept verbatim. -/
def fixLastActivity (now : Nat) (r : RawChatStats) : RawChatStats :=
  { r with last_activity :=
      match r.last_activity with
      | some none => some (some now)
      | x => x }

/-- `load_stats_from_file` (bot.py lines 466-489).  The file argument:
`none` = `FileNotFoundError`, `some none» = unreadable / invalid JSON
(the generic `except` branch), `some (some snap)` = parsed snapshot.
In both failure cases every store field keeps its `__init__` value. -/
def load_stats_from_file (file : Option (Option RawSnapshot)) (now : Nat)
    (st : LoadedStore) : LoadedStore :=
  match file with
  | none => st
  | some none => st
  | some (some snap) =>
    { global_stats := snap.global_stats.getD st.global_stats,
      tracked_groups := (snap.tracked_groups.getD []).dedup,
      channel_stats :=
        (snap.channel_stats.getD []).foldl
          (fun acc p => setEntry p.1 (fixLastActivity now p.2) acc)
          st.channel_stats }

/-- Whether a loaded per-chat entry has all seven counter fields. -/
def hasAllCounterFields (r : RawChatStats) : Bool :=
  r.hourly_requests.isSome && r.hourly_left.isSome &&
  r.daily_requests.isSome && r.daily_left.isSome &&
  r.total_requests.isSome && r.total_approved.isSome && r.total_left.isSome

/-! ### Event traces -/

/-- The external stimuli that drive the bot: platform events, approval
timer firings (only jobs actually scheduled may fire, each at most
once), and the two periodic report jobs. -/
inductive Event
  | joinRequest (user : UserData) (chat_id : String) (title? : Option String)
      (ctype : ChatType) (now : Nat)
  | timerFire (user_id chat_id : String) (approveOk : Bool) (now : Nat)
  | memberUpdate (user : UserData) (chat_id : String) (title? : Option String)
      (old_status new_status : MemberStatus) (env : WelcomeEnv) (now : Nat)
  | hourlyReport
  | dailyReport
deriving DecidableEq, Repr

def step (st : BotState) : Event → BotState
  | .joinRequest u c t ty now => handle_chat_join_request u c t ty now st
  | .timerFire u c ok now =>
    if (u, c) ∈ st.timers then
      (auto_approve_request u c ok now
        { st with timers := removeFirst (u, c) st.timers }).1
    else st
  | .memberUpdate u c t o n env now =>
    (handle_chat_member_update u c t o n env now st).1
  | .hourlyReport => (send_hourly_stats st).1
  | .dailyReport => (send_daily_stats st).1

/-- Run a trace of events from the empty (freshly constructed) state. -/
def run (es : List Event) : BotState :=
  es.foldl step initState

/-! ### Derived observables -/

/-- "The request (u, c) is pending": the pending table holds an entry
for `u` whose recorded chat is `c`. -/
def pendingPair (st : BotState) (u c : String) : Bool :=
  match lookupKey u st.pending_requests with
  | some e => e.chat_id == c
  | none => false

def statTotalRequests (st : BotState) (c : String) : Nat :=
  ((lookupKey c st.channel_stats).map ChatStats.total_requests).getD 0

def statTotalApproved (st : BotState) (c : String) : Nat :=
  ((lookupKey c st.channel_stats).map ChatStats.total_approved).getD 0

def statTotalLeft (st : BotState) (c : String) : Nat :=
  ((lookupKey c st.channel_stats).map ChatStats.total_left).getD 0

/-- Outstanding scheduled approval jobs for chat `c`. -/
def countTimers (st : BotState) (c : String) : Nat :=
  countKey2 c st.timers

/-- Project a `ChatStats` counter by key. -/
def chatField (k : StatKey) (s : ChatStats) : Nat :=
  match k with
  | .hourly_requests => s.hourly_requests
  | .hourly_left => s.hourly_left
  | .daily_requests => s.daily_requests
  | .daily_left => s.daily_left
  | .total_requests => s.total_requests
  | .total_approved => s.total_approved
  | .total_left => s.total_left

/-- Project a `GlobalStats` counter by key. -/
def globalField (k : StatKey) (g : GlobalStats) : Nat :=
  match k with
  | .hourly_requests => g.hourly_requests
  | .hourly_left => g.hourly_left
  | .daily_requests => g.daily_requests
  | .daily_left => g.daily_left
  | .total_requests => g.total_requests
  | .total_approved => g.total_approved
  | .total_left => g.total_left

/-- Every chat's hourly-window counters are zero. -/
def allHourlyZero (st : BotState) : Bool :=
  st.channel_stats.all (fun p => p.2.hourly_requests == 0 && p.2.hourly_left == 0)

/-- Every chat's period-window counters are zero. -/
def allDailyZero (st : BotState) : Bool :=
  st.channel_stats.all (fun p => p.2.daily_requests == 0 && p.2.daily_left == 0)

/-- The fields of a chat entry an hourly report must not change. -/
def hourlyFrame (s : ChatStats) : String × Nat × Nat × Nat × Nat × Nat :=
  (s.title, s.daily_requests, s.daily_left, s.total_requests, s.total_approved, s.total_left)

/-- The fields of a chat entry an 8-hour report must not change. -/
def dailyFrame (s : ChatStats) : String × Nat × Nat × Nat × Nat × Nat :=
  (s.title, s.hourly_requests, s.hourly_left, s.total_requests, s.total_approved, s.total_left)

/-! ### Lemmas about the dictionary / set helpers -/

section AssocLemmas

variable {κ : Type} {α : Type} [DecidableEq κ]

theorem lookupKey_setEntry (k k' : κ) (v : α) (l : List (κ × α)) :
    lookupKey k (setEntry k' v l) = if k' = k then some v else lookupKey k l := by
  induction l with
  | nil => by_cases h : k' = k <;> simp [setEntry, lookupKey, h]
  | cons p rest ih =>
    by_cases h : p.1 = k'
    · by_cases h2 : k' = k
      · subst h2
        simp [setEntry, lookupKey, h]
      · have hpk : ¬ p.1 = k := fun hh => h2 (h.symm.trans hh)
        have h2s : ¬ k = k' := fun hh => h2 hh.symm
        simp [setEntry, lookupKey, h, h2, h2s, hpk]
    · by_cases h2 : p.1 = k
      · have hk : ¬ k' = k := fun hh => h (h2.trans hh.symm)
        have hks : ¬ k = k' := fun hh => hk hh.symm
        simp [setEntry, lookupKey, h, h2, hk, hks]
      · simp [setEntry, lookupKey, h, h2, ih]

theorem lookupKey_updateEntry (k k' : κ) (f : α → α) (l : List (κ × α)) :
    lookupKey k (updateEntry k' f l) =
      if k' = k then (lookupKey k l).map f else lookupKey k l := by
  induction l with
  | nil => by_cases h : k' = k <;> simp [updateEntry, lookupKey, h]
  | cons p rest ih =>
    by_cases h : p.1 = k'
    · by_cases h2 : k' = k
      · subst h2
        simp [updateEntry, lookupKey, h]
      · have hpk : ¬ p.1 = k := fun hh => h2 (h.symm.trans hh)
        have h2s : ¬ k = k' := fun hh => h2 hh.symm
        simp [updateEntry, lookupKey, h, h2, h2s, hpk]
    · by_cases h2 : p.1 = k
      · have hk : ¬ k' = k := fun hh => h (h2.trans hh.symm)
        have hks : ¬ k = k' := fun hh => hk hh.symm
        simp [updateEntry, lookupKey, h, h2, hk, hks]
      · simp [updateEntry, lookupKey, h, h2, ih]

theorem lookupKey_removeKey_ne (k k' : κ) (l : List (κ × α)) (h : k' ≠ k) :
    lookupKey k (removeKey k' l) = lookupKey k l := by
  induction l with
  | nil => simp [removeKey, lookupKey]
  | cons p rest ih =>
    have hs : ¬ k = k' := fun hh => h hh.symm
    by_cases h1 : p.1 = k'
    · have hpk : ¬ p.1 = k := fun hk => h (h1.symm.trans hk)
      simp [removeKey, lookupKey, h1, hpk, hs, h]
    · by_cases h2 : p.1 = k <;> simp [removeKey, lookupKey, h1, h2, ih, hs, h]

theorem lookupKey_eq_none_of_not_mem (k : κ) (l : List (κ × α))
    (h : k ∉ l.map Prod.fst) : lookupKey k l = none := by
  induction l with
  | nil => rfl
  | cons p rest ih =>
    simp only [List.map_cons, List.mem_cons] at h
    push_neg at h
    have : ¬ p.1 = k := fun hk => h.1 hk.symm
    simp [lookupKey, this, ih h.2]

theorem lookupKey_removeKey_self (k : κ) (l : List (κ × α))
    (h : (l.map Prod.fst).Nodup) : lookupKey k (removeKey k l) = none := by
  induction l with
  | nil => rfl
  | cons p rest ih =>
    simp only [List.map_cons, List.nodup_cons] at h
    by_cases h1 : p.1 = k
    · simp only [removeKey, h1, if_pos]
      exact lookupKey_eq_none_of_not_mem k rest (h1 ▸ h.1)
    · simp [removeKey, lookupKey, h1, ih h.2]

theorem lookupKey_append (k : κ) (l₁ l₂ : List (κ × α)) :
    lookupKey k (l₁ ++ l₂) =
      match lookupKey k l₁ with
      | some v => some v
      | none => lookupKey k l₂ := by
  induction l₁ with
  | nil => simp [lookupKey]
  | cons p rest ih =>
    by_cases h : p.1 = k <;> simp [lookupKey, h, ih]

theorem sumF_updateEntry (f : α → Nat) (g : α → α) (k : κ) (l : List (κ × α))
    (v : α) (h : lookupKey k l = some v) :
    sumF f (updateEntry k g l) + f v = sumF f l + f (g v) := by
  induction l with
  | nil => simp [lookupKey] at h
  | cons p rest ih =>
    by_cases h1 : p.1 = k
    · simp only [lookupKey, h1, if_pos] at h
      cases h
      simp [updateEntry, sumF, h1]
      omega
    · simp only [lookupKey, h1, if_neg, not_false_iff] at h
      have := ih h
      simp only [updateEntry, h1, if_neg, not_false_iff, sumF, List.map_cons,
        List.sum_cons] at *
      omega

end AssocLemmas

section SumLemmas

variable {κ : Type} {α : Type}

theorem sumF_append (f : α → Nat) (l₁ l₂ : List (κ × α)) :
    sumF f (l₁ ++ l₂) = sumF f l₁ + sumF f l₂ := by
  simp [sumF]

theorem sumF_map_of_eq (f : α → Nat) (g : α → α) (l : List (κ × α))
    (h : ∀ v, f (g v) = f v) :
    sumF f (l.map (fun p => (p.1, g p.2))) = sumF f l := by
  induction l with
  | nil => rfl
  | cons p rest ih => simp [sumF, h, Function.comp] at *; simp [ih]

theorem sumF_map_of_zero (f : α → Nat) (g : α → α) (l : List (κ × α))
    (h : ∀ v, f (g v) = 0) :
    sumF f (l.map (fun p => (p.1, g p.2))) = 0 := by
  induction l with
  | nil => rfl
  | cons p rest ih => simp [sumF, h, Function.comp] at *; simp [ih]

theorem sumF_eq_zero_iff (f : α → Nat) (l : List (κ × α)) :
    sumF f l = 0 ↔ ∀ p ∈ l, f p.2 = 0 := by
  simp only [sumF, List.sum_eq_zero_iff, List.mem_map]
  constructor
  · rintro h p hp
    exact h (f p.2) ⟨p, hp, rfl⟩
  · rintro h x ⟨p, hp, rfl⟩
    exact h p hp

end SumLemmas

section SetLemmas

variable {α : Type} [DecidableEq α]

theorem mem_removeFirst_of_nodup (x : α) (l : List α) (h : l.Nodup) :
    x ∉ removeFirst x l := by
  induction l with
  | nil => simp [removeFirst]
  | cons y rest ih =>
    simp only [List.nodup_cons] at h
    by_cases h1 : y = x
    · simp only [removeFirst, h1, if_pos]
      exact h1 ▸ h.1
    · simp only [removeFirst, h1, if_neg, not_false_iff, List.mem_cons]
      rintro (rfl | hx)
      · exact h1 rfl
      · exact ih h.2 hx

theorem countKey2_append {β : Type} (c : α) (l : List (β × α)) (p : β × α) :
    countKey2 c (l ++ [p]) = countKey2 c l + (if p.2 = c then 1 else 0) := by
  induction l with
  | nil => simp [countKey2]
  | cons q rest ih => simp [countKey2, ih]; omega

theorem countKey2_removeFirst {β : Type} [DecidableEq β] (c : α)
    (l : List (β × α)) (q : β × α) (h : q ∈ l) :
    countKey2 c l = countKey2 c (removeFirst q l) + (if q.2 = c then 1 else 0) := by
  induction l with
  | nil => simp at h
  | cons p rest ih =>
    by_cases h1 : p = q
    · subst h1
      simp [removeFirst, countKey2]
      omega
    · rcases List.mem_cons.1 h with h2 | h2
      · exact absurd h2.symm h1
      · simp [removeFirst, h1, countKey2, ih h2]
        omega

end SetLemmas

/-! ### Characterization lemmas for the handlers -/

theorem chatField_bumpChat (k k' : StatKey) (now : Nat) (s : ChatStats) :
    chatField k (bumpChat k' now s) =
      chatField k s + if k' = k then 1 else 0 := by
  cases k <;> cases k' <;> simp [chatField, bumpChat]

theorem globalField_bumpGlobal (k k' : StatKey) (g : GlobalStats) :
    globalField k (bumpGlobal k' g) =
      globalField k g + if k' = k then 1 else 0 := by
  cases k <;> cases k' <;> simp [globalField, bumpGlobal]

theorem title_bumpChat (k : StatKey) (now : Nat) (s : ChatStats) :
    (bumpChat k now s).title = s.title := by
  cases k <;> rfl

theorem chatField_resetHourly (k : StatKey) (s : ChatStats) :
    chatField k (resetHourly s) =
      if k = .hourly_requests ∨ k = .hourly_left then 0 else chatField k s := by
  cases k <;> simp [chatField, resetHourly]

theorem chatField_resetDaily (k : StatKey) (s : ChatStats) :
    chatField k (resetDaily s) =
      if k = .daily_requests ∨ k = .daily_left then 0 else chatField k s := by
  cases k <;> simp [chatField, resetDaily]

theorem chatField_newChatStats (k : StatKey) (title : String) (now : Nat) :
    chatField k (newChatStats title now) = 0 := by
  cases k <;> rfl

/-- `get_or_create_channel_stats` touches only `channel_stats`. -/
theorem get_or_create_frame (chat_id title : String) (now : Nat) (st : BotState) :
    (get_or_create_channel_stats chat_id title now st).pending_requests = st.pending_requests ∧
    (get_or_create_channel_stats chat_id title now st).approved_users = st.approved_users ∧
    (get_or_create_channel_stats chat_id title now st).tracked_groups = st.tracked_groups ∧
    (get_or_create_channel_stats chat_id title now st).global_stats = st.global_stats ∧
    (get_or_create_channel_stats chat_id title now st).timers = st.timers := by
  unfold get_or_create_channel_stats
  split <;> simp

theorem lookupKey_get_or_create (chat_id title : String) (now : Nat)
    (st : BotState) (c : String) :
    lookupKey c (get_or_create_channel_stats chat_id title now st).channel_stats =
      if chat_id = c then
        some ((lookupKey chat_id st.channel_stats).getD (newChatStats title now))
      else lookupKey c st.channel_stats := by
  unfold get_or_create_channel_stats
  rcases h : lookupKey chat_id st.channel_stats with _ | v
  · simp only [h, Option.isSome_none, Bool.false_eq_true, if_false]
    by_cases hc : chat_id = c
    · subst hc
      simp [lookupKey_append, h, lookupKey]
    · simp [lookupKey_append, hc, lookupKey]
      rcases h2 : lookupKey c st.channel_stats with _ | w <;> simp
  · simp only [h, Option.isSome_some, if_true]
    by_cases hc : chat_id = c
    · subst hc
      simp [h]
    · simp [hc]

/-- `update_channel_stats` touches only `channel_stats` and `global_stats`. -/
theorem update_channel_frame (chat_id : String) (k : StatKey) (now : Nat)
    (st : BotState) :
    (update_channel_stats chat_id k now st).pending_requests = st.pending_requests ∧
    (update_channel_stats chat_id k now st).approved_users = st.approved_users ∧
    (update_channel_stats chat_id k now st).tracked_groups = st.tracked_groups ∧
    (update_channel_stats chat_id k now st).timers = st.timers := by
  unfold update_channel_stats
  split <;> simp

theorem lookupKey_update_channel (chat_id : String) (k : StatKey) (now : Nat)
    (st : BotState) (c : String) :
    lookupKey c (update_channel_stats chat_id k now st).channel_stats =
      if chat_id = c then (lookupKey c st.channel_stats).map (bumpChat k now)
      else lookupKey c st.channel_stats := by
  unfold update_channel_stats
  rcases h : lookupKey chat_id st.channel_stats with _ | v
  · simp only [h, Option.isSome_none, Bool.false_eq_true, if_false]
    by_cases hc : chat_id = c
    · subst hc
      simp [h]
    · simp [hc]
  · simp only [h, Option.isSome_some, if_true]
    simp [lookupKey_updateEntry]

theorem global_update_channel (chat_id : String) (k : StatKey) (now : Nat)
    (st : BotState) :
    (update_channel_stats chat_id k now st).global_stats =
      if (lookupKey chat_id st.channel_stats).isSome then
        bumpGlobal k st.global_stats
      else st.global_stats := by
  unfold update_channel_stats
  split <;> simp_all

/-- Per-key sum over the chats: `update_channel_stats` bumps sum and
global aggregate in lock-step (or neither, when the chat is unknown). -/
theorem sumF_update_channel (chat_id : String) (k k' : StatKey) (now : Nat)
    (st : BotState) :
    sumF (chatField k') (update_channel_stats chat_id k now st).channel_stats =
      sumF (chatField k') st.channel_stats +
        if (lookupKey chat_id st.channel_stats).isSome ∧ k = k' then 1 else 0 := by
  unfold update_channel_stats
  rcases h : lookupKey chat_id st.channel_stats with _ | v
  · simp [h]
  · simp only [h, Option.isSome_some, if_true, true_and]
    have := sumF_updateEntry (chatField k') (bumpChat k now) chat_id
      st.channel_stats v h
    rw [chatField_bumpChat] at this
    by_cases hk : k = k' <;> simp [hk] at this ⊢ <;> omega

theorem lookupKey_map_snd {α : Type} (g : α → α) (c : String)
    (l : List (String × α)) :
    lookupKey c (l.map (fun p => (p.1, g p.2))) = (lookupKey c l).map g := by
  induction l with
  | nil => rfl
  | cons p rest ih =>
    by_cases h : p.1 = c <;> simp [lookupKey, h, ih]

/-- Generic counter read: the value of counter `k` for chat `c` (0 when
the chat has no stats entry). -/
def statField (k : StatKey) (st : BotState) (c : String) : Nat :=
  ((lookupKey c st.channel_stats).map (chatField k)).getD 0

theorem statTotalRequests_eq (st : BotState) (c : String) :
    statTotalRequests st c = statField .total_requests st c := rfl

theorem statTotalApproved_eq (st : BotState) (c : String) :
    statTotalApproved st c = statField .total_approved st c := rfl

theorem statTotalLeft_eq (st : BotState) (c : String) :
    statTotalLeft st c = statField .total_left st c := rfl

theorem statField_update_channel (k k' : StatKey) (chat_id : String)
    (now : Nat) (st : BotState) (c : String) :
    statField k (update_channel_stats chat_id k' now st) c =
      statField k st c +
        if chat_id = c ∧ (lookupKey c st.channel_stats).isSome ∧ k' = k then 1
        else 0 := by
  unfold statField
  rw [lookupKey_update_channel]
  by_cases hc : chat_id = c
  · subst hc
    rcases h : lookupKey chat_id st.channel_stats with _ | v
    · simp
    · by_cases hk : k' = k <;> simp [chatField_bumpChat, hk]
  · simp [hc]

theorem statField_get_or_create (k : StatKey) (chat_id title : String)
    (now : Nat) (st : BotState) (c : String) :
    statField k (get_or_create_channel_stats chat_id title now st) c =
      statField k st c := by
  unfold statField
  rw [lookupKey_get_or_create]
  by_cases hc : chat_id = c
  · subst hc
    rcases h : lookupKey chat_id st.channel_stats with _ | v <;>
      simp [chatField_newChatStats]
  · simp [hc]

/-- Presence of a chat's stats entry is monotone under every helper. -/
theorem isSome_get_or_create (chat_id title : String) (now : Nat)
    (st : BotState) (c : String)
    (h : (lookupKey c st.channel_stats).isSome = true) :
    (lookupKey c (get_or_create_channel_stats chat_id title now st).channel_stats).isSome = true := by
  rw [lookupKey_get_or_create]
  by_cases hc : chat_id = c <;> simp [hc, h]

theorem isSome_update_channel (chat_id : String) (k : StatKey) (now : Nat)
    (st : BotState) (c : String)
    (h : (lookupKey c st.channel_stats).isSome = true) :
    (lookupKey c (update_channel_stats chat_id k now st).channel_stats).isSome = true := by
  rw [lookupKey_update_channel]
  by_cases hc : chat_id = c <;> simp [hc] <;> simp_all

theorem isSome_get_or_create_self (chat_id title : String) (now : Nat)
    (st : BotState) :
    (lookupKey chat_id (get_or_create_channel_stats chat_id title now st).channel_stats).isSome = true := by
  rw [lookupKey_get_or_create]
  simp

/-! #### Effect of `handle_chat_join_request` (supported chat type) -/

theorem join_channel_effects (u : UserData) (cid : String) (t : Option String)
    (ty : ChatType) (now : Nat) (st : BotState) (k : StatKey) (c : String)
    (hty : supportedChatType ty = true) :
    statField k (handle_chat_join_request u cid t ty now st) c =
      statField k st c +
        if cid = c ∧ (k = .hourly_requests ∨ k = .daily_requests ∨ k = .total_requests)
        then 1 else 0 := by
  unfold handle_chat_join_request statField
  simp only [hty, if_true]
  simp only [lookupKey_update_channel, lookupKey_get_or_create]
  by_cases hc : cid = c
  · subst hc
    simp only [if_pos rfl]
    rcases h : lookupKey cid st.channel_stats with _ | v
    · rcases k <;> simp [chatField_bumpChat, chatField_newChatStats]
    · rcases k <;> simp [chatField_bumpChat]
  · simp [hc]

theorem join_state_effects (u : UserData) (cid : String) (t : Option String)
    (ty : ChatType) (now : Nat) (st : BotState)
    (hty : supportedChatType ty = true) :
    (handle_chat_join_request u cid t ty now st).pending_requests =
      setEntry (toString u.id)
        { chat_id := cid, request_time := now, user_data := u }
        st.pending_requests ∧
    (handle_chat_join_request u cid t ty now st).timers =
      st.timers ++ [(toString u.id, cid)] ∧
    (handle_chat_join_request u cid t ty now st).approved_users =
      st.approved_users ∧
    (handle_chat_join_request u cid t ty now st).tracked_groups =
      addToSet cid st.tracked_groups := by
  unfold handle_chat_join_request
  simp only [hty, if_true]
  have h1 := update_channel_frame cid .hourly_requests now
    (get_or_create_channel_stats cid (chatTitleOf t cid) now st)
  have h2 := update_channel_frame cid .daily_requests now
    (update_channel_stats cid .hourly_requests now
      (get_or_create_channel_stats cid (chatTitleOf t cid) now st))
  have h3 := update_channel_frame cid .total_requests now
    (update_channel_stats cid .daily_requests now
      (update_channel_stats cid .hourly_requests now
        (get_or_create_channel_stats cid (chatTitleOf t cid) now st)))
  have h0 := get_or_create_frame cid (chatTitleOf t cid) now st
  simp only [h0.1, h0.2.1, h0.2.2.1, h0.2.2.2.2, h1.1, h1.2.1, h1.2.2.1, h1.2.2.2,
    h2.1, h2.2.1, h2.2.2.1, h2.2.2.2, h3.1, h3.2.1, h3.2.2.1, h3.2.2.2] at *
  exact ⟨trivial, trivial, trivial, trivial⟩

/-! #### Effect of `auto_approve_request` -/

/-- The result of `auto_approve_request` field by field, phrased over the
input state. -/
theorem auto_approve_spec (u c : String) (ok : Bool) (now : Nat)
    (st : BotState) :
    (auto_approve_request u c ok now st).1.pending_requests =
      (if (lookupKey u st.pending_requests).isSome = true then
        removeKey u st.pending_requests
       else st.pending_requests) ∧
    (auto_approve_request u c ok now st).1.approved_users =
      (if (lookupKey u st.pending_requests).isSome = true ∧ ok = true then
        addToSet u st.approved_users
       else st.approved_users) ∧
    (auto_approve_request u c ok now st).1.channel_stats =
      (if (lookupKey u st.pending_requests).isSome = true ∧ ok = true then
        (update_channel_stats c .total_approved now st).channel_stats
       else st.channel_stats) ∧
    (auto_approve_request u c ok now st).1.global_stats =
      (if (lookupKey u st.pending_requests).isSome = true ∧ ok = true then
        (update_channel_stats c .total_approved now st).global_stats
       else st.global_stats) ∧
    (auto_approve_request u c ok now st).1.timers = st.timers ∧
    (auto_approve_request u c ok now st).1.tracked_groups = st.tracked_groups ∧
    (auto_approve_request u c ok now st).2 =
      (if (lookupKey u st.pending_requests).isSome = true then 1 else 0) := by
  unfold auto_approve_request update_channel_stats
  rcases h : lookupKey u st.pending_requests with _ | e <;> rcases ok with _ | _ <;>
    simp [h] <;> split <;> simp_all

theorem statField_auto_approve (u c : String) (ok : Bool) (now : Nat)
    (st : BotState) (k : StatKey) (c' : String) :
    statField k (auto_approve_request u c ok now st).1 c' =
      statField k st c' +
        if (lookupKey u st.pending_requests).isSome = true ∧ ok = true ∧
            c = c' ∧ (lookupKey c' st.channel_stats).isSome = true ∧
            StatKey.total_approved = k
        then 1 else 0 := by
  have hs := (auto_approve_spec u c ok now st).2.2.1
  unfold statField
  rw [hs]
  by_cases hp : (lookupKey u st.pending_requests).isSome = true ∧ ok = true
  · rw [if_pos hp]
    have h2 := statField_update_channel k .total_approved c now st c'
    unfold statField at h2
    rw [h2]
    by_cases hin : c = c' ∧ (lookupKey c' st.channel_stats).isSome = true ∧
        StatKey.total_approved = k
    · rw [if_pos hin, if_pos ⟨hp.1, hp.2, hin.1, hin.2.1, hin.2.2⟩]
    · rw [if_neg hin, if_neg (by tauto)]
  · rw [if_neg hp, if_neg (by tauto)]
    omega

/-! #### Effect of `handle_chat_member_update` -/

theorem member_update_channel (user : UserData) (cid : String)
    (t : Option String) (o n : MemberStatus) (env : WelcomeEnv) (now : Nat)
    (st : BotState) (k : StatKey) (c : String) :
    statField k (handle_chat_member_update user cid t o n env now st).1 c =
      statField k st c +
        if (isLeaving o && isActiveMember n) = false ∧
            (wasMemberish o && isLeaving n) = true ∧ cid = c ∧
            (k = .hourly_left ∨ k = .daily_left ∨ k = .total_left)
        then 1 else 0 := by
  unfold handle_chat_member_update
  by_cases h1 : (isLeaving o && isActiveMember n) = true
  · by_cases h2 : toString user.id ∈ st.approved_users <;>
      rcases hw : send_welcome_message env with _ | m <;>
      simp [h1, h2, hw, statField]
  · by_cases h2 : (wasMemberish o && isLeaving n) = true
    · rw [if_neg (by simp [h1]), if_pos h2]
      unfold statField
      simp only [lookupKey_update_channel, lookupKey_get_or_create]
      by_cases hc : cid = c
      · subst hc
        simp only [if_pos rfl]
        rcases hl : lookupKey cid st.channel_stats with _ | v
        · rcases k <;>
            simp_all [chatField_bumpChat, chatField_newChatStats,
              Bool.not_eq_true]
        · rcases k <;> simp_all [chatField_bumpChat, Bool.not_eq_true]
      · simp [hc]
    · rw [if_neg (by simp [h1]), if_neg (by simp [h2])]
      simp [h1, h2, statField]

theorem member_update_frame (user : UserData) (cid : String)
    (t : Option String) (o n : MemberStatus) (env : WelcomeEnv) (now : Nat)
    (st : BotState) :
    (handle_chat_member_update user cid t o n env now st).1.pending_requests =
      st.pending_requests ∧
    (handle_chat_member_update user cid t o n env now st).1.timers = st.timers := by
  unfold handle_chat_member_update update_channel_stats
    get_or_create_channel_stats
  by_cases h1 : (isLeaving o && isActiveMember n) = true
  · by_cases h2 : toString user.id ∈ st.approved_users <;>
      rcases hw : send_welcome_message env with _ | m <;> simp [h1, h2, hw]
  · by_cases h2 : (wasMemberish o && isLeaving n) = true <;>
      simp [h1, h2, apply_ite BotState.pending_requests,
        apply_ite BotState.timers]

/-! #### Effect of the report jobs on per-chat lifetime counters -/

theorem hourly_channel_lifetime (st : BotState) (k : StatKey)
    (hk : k = .daily_requests ∨ k = .daily_left ∨ k = .total_requests ∨
      k = .total_approved ∨ k = .total_left) (c : String) :
    statField k (send_hourly_stats st).1 c = statField k st c := by
  unfold send_hourly_stats
  dsimp only
  split
  · rfl
  · simp only [statField, lookupKey_map_snd]
    rcases h : lookupKey c st.channel_stats with _ | v
    · simp
    · rcases hk with rfl | rfl | rfl | rfl | rfl <;>
        simp [chatField_resetHourly]

theorem daily_channel_lifetime (st : BotState) (k : StatKey)
    (hk : k = .hourly_requests ∨ k = .hourly_left ∨ k = .total_requests ∨
      k = .total_approved ∨ k = .total_left) (c : String) :
    statField k (send_daily_stats st).1 c = statField k st c := by
  unfold send_daily_stats
  simp only [statField, lookupKey_map_snd]
  rcases h : lookupKey c st.channel_stats with _ | v
  · simp
  · rcases hk with rfl | rfl | rfl | rfl | rfl <;>
      simp [chatField_resetDaily]

theorem hourly_frame_rest (st : BotState) :
    (send_hourly_stats st).1.pending_requests = st.pending_requests ∧
    (send_hourly_stats st).1.timers = st.timers ∧
    (send_hourly_stats st).1.approved_users = st.approved_users ∧
    (send_hourly_stats st).1.tracked_groups = st.tracked_groups := by
  unfold send_hourly_stats
  dsimp only
  split <;> simp

theorem daily_frame_rest (st : BotState) :
    (send_daily_stats st).1.pending_requests = st.pending_requests ∧
    (send_daily_stats st).1.timers = st.timers ∧
    (send_daily_stats st).1.approved_users = st.approved_users ∧
    (send_daily_stats st).1.tracked_groups = st.tracked_groups := by
  unfold send_daily_stats
  simp

/-! ### The lifetime-counter invariant (requests bound approvals) -/

/-- Inductive invariant: per chat, the approved lifetime counter plus
the number of still-outstanding approval jobs never exceeds the request
lifetime counter. -/
def approvalBudget (st : BotState) : Prop :=
  ∀ c, statField .total_approved st c + countTimers st c ≤
    statField .total_requests st c

theorem approvalBudget_init : approvalBudget initState := by
  intro c
  simp [statField, countTimers, countKey2, initState, lookupKey]

theorem join_unsupported (u : UserData) (cid : String) (t : Option String)
    (ty : ChatType) (now : Nat) (st : BotState)
    (hty : ¬ supportedChatType ty = true) :
    handle_chat_join_request u cid t ty now st = st := by
  unfold handle_chat_join_request
  simp [hty]

theorem approvalBudget_step (st : BotState) (e : Event)
    (h : approvalBudget st) : approvalBudget (step st e) := by
  cases e with
  | joinRequest u cid t ty now =>
    by_cases hty : supportedChatType ty = true
    · intro c
      have hR := join_channel_effects u cid t ty now st .total_requests c hty
      have hA := join_channel_effects u cid t ty now st .total_approved c hty
      have hT := (join_state_effects u cid t ty now st hty).2.1
      have hTc : countTimers (handle_chat_join_request u cid t ty now st) c =
          countTimers st c + (if cid = c then 1 else 0) := by
        unfold countTimers
        rw [hT, countKey2_append]
      have hb := h c
      simp only [step]
      by_cases hc : cid = c
      · subst hc
        simp at hR hA hTc
        omega
      · simp [hc] at hR hA hTc
        omega
    · simp only [step, join_unsupported u cid t ty now st hty]
      exact h
  | timerFire u c ok now =>
    by_cases hmem : (u, c) ∈ st.timers
    · intro c'
      simp only [step, if_pos hmem]
      have key : ∀ k, statField k (auto_approve_request u c ok now
          { st with timers := removeFirst (u, c) st.timers }).1 c' =
          statField k st c' +
            if (lookupKey u st.pending_requests).isSome = true ∧ ok = true ∧
                c = c' ∧ (lookupKey c' st.channel_stats).isSome = true ∧
                StatKey.total_approved = k then 1 else 0 :=
        fun k => statField_auto_approve u c ok now _ k c'
      have hA := key .total_approved
      have hR := key .total_requests
      have hT : (auto_approve_request u c ok now
          { st with timers := removeFirst (u, c) st.timers }).1.timers =
          removeFirst (u, c) st.timers :=
        (auto_approve_spec u c ok now _).2.2.2.2.1
      have hTc : countTimers (auto_approve_request u c ok now
          { st with timers := removeFirst (u, c) st.timers }).1 c' =
          countKey2 c' (removeFirst (u, c) st.timers) := by
        unfold countTimers
        rw [hT]
      have hcount := countKey2_removeFirst c' st.timers (u, c) hmem
      have hb := h c'
      unfold countTimers at hb
      rw [if_neg (by simp)] at hR
      by_cases hc : c = c'
      · subst hc
        simp at hcount
        have hA2 : statField .total_approved (auto_approve_request u c ok now
            { st with timers := removeFirst (u, c) st.timers }).1 c ≤
            statField .total_approved st c + 1 := by
          rw [hA]
          split <;> omega
        omega
      · rw [if_neg (by tauto)] at hA
        simp [hc] at hcount
        omega
    · simp only [step, if_neg hmem]
      exact h
  | memberUpdate u cid t o n env now =>
    intro c
    simp only [step]
    have hA := member_update_channel u cid t o n env now st .total_approved c
    have hR := member_update_channel u cid t o n env now st .total_requests c
    have hT := (member_update_frame u cid t o n env now st).2
    have hTc : countTimers (handle_chat_member_update u cid t o n env now st).1 c =
        countTimers st c := by
      unfold countTimers
      rw [hT]
    rw [if_neg (by simp)] at hA
    rw [if_neg (by simp)] at hR
    have hb := h c
    omega
  | hourlyReport =>
    intro c
    simp only [step]
    have hA := hourly_channel_lifetime st .total_approved (by simp) c
    have hR := hourly_channel_lifetime st .total_requests (by simp) c
    have hT := (hourly_frame_rest st).2.1
    have hTc : countTimers (send_hourly_stats st).1 c = countTimers st c := by
      unfold countTimers
      rw [hT]
    have hb := h c
    omega
  | dailyReport =>
    intro c
    simp only [step]
    have hA := daily_channel_lifetime st .total_approved (by simp) c
    have hR := daily_channel_lifetime st .total_requests (by simp) c
    have hT := (daily_frame_rest st).2.1
    have hTc : countTimers (send_daily_stats st).1 c = countTimers st c := by
      unfold countTimers
      rw [hT]
    have hb := h c
    omega

theorem approvalBudget_run (es : List Event) : approvalBudget (run es) := by
  suffices h : ∀ st, approvalBudget st → approvalBudget (es.foldl step st) from
    h initState approvalBudget_init
  induction es with
  | nil => exact fun st h => h
  | cons e rest ih => exact fun st h => ih _ (approvalBudget_step st e h)

/-! ### The global-aggregate invariant (global = sum of chats) -/

/-- Inductive invariant: for every counter key, the global aggregate
equals the sum of that counter over all chats. -/
def globalMatchesSum (st : BotState) : Prop :=
  ∀ k, globalField k st.global_stats = sumF (chatField k) st.channel_stats

theorem globalMatchesSum_init : globalMatchesSum initState := by
  intro k
  rcases k <;> simp [globalField, sumF, initState, initGlobalStats]

theorem globalMatchesSum_update (cid : String) (k0 : StatKey) (now : Nat)
    (st : BotState) (h : globalMatchesSum st) :
    globalMatchesSum (update_channel_stats cid k0 now st) := by
  intro k
  have hs := sumF_update_channel cid k0 k now st
  have hg := global_update_channel cid k0 now st
  by_cases hp : (lookupKey cid st.channel_stats).isSome = true
  · rw [if_pos hp] at hg
    rw [hs, hg, globalField_bumpGlobal, h k]
    by_cases hk : k0 = k <;> simp [hk, hp]
  · rw [if_neg hp] at hg
    rw [hs, hg, h k, if_neg (by tauto)]
    omega

theorem globalMatchesSum_get_or_create (cid title : String) (now : Nat)
    (st : BotState) (h : globalMatchesSum st) :
    globalMatchesSum (get_or_create_channel_stats cid title now st) := by
  intro k
  unfold get_or_create_channel_stats
  split
  · exact h k
  · show globalField k st.global_stats =
      sumF (chatField k) (st.channel_stats ++ [(cid, newChatStats title now)])
    rw [sumF_append]
    simp [sumF, chatField_newChatStats, h k]

theorem globalMatchesSum_join (u : UserData) (cid : String)
    (t : Option String) (ty : ChatType) (now : Nat) (st : BotState)
    (h : globalMatchesSum st) :
    globalMatchesSum (handle_chat_join_request u cid t ty now st) := by
  by_cases hty : supportedChatType ty = true
  · unfold handle_chat_join_request
    simp only [hty, if_true]
    have := globalMatchesSum_update cid .total_requests now _
      (globalMatchesSum_update cid .daily_requests now _
        (globalMatchesSum_update cid .hourly_requests now _
          (globalMatchesSum_get_or_create cid (chatTitleOf t cid) now st h)))
    exact fun k => this k
  · rw [join_unsupported u cid t ty now st hty]
    exact h

theorem globalMatchesSum_auto (u c : String) (ok : Bool) (now : Nat)
    (st : BotState) (h : globalMatchesSum st) :
    globalMatchesSum (auto_approve_request u c ok now st).1 := by
  have hs := auto_approve_spec u c ok now st
  unfold globalMatchesSum
  intro k
  rw [hs.2.2.2.1, hs.2.2.1]
  by_cases hp : (lookupKey u st.pending_requests).isSome = true ∧ ok = true
  · rw [if_pos hp, if_pos hp]
    exact globalMatchesSum_update c .total_approved now st h k
  · rw [if_neg hp, if_neg hp]
    exact h k

theorem globalMatchesSum_member (user : UserData) (cid : String)
    (t : Option String) (o n : MemberStatus) (env : WelcomeEnv) (now : Nat)
    (st : BotState) (h : globalMatchesSum st) :
    globalMatchesSum (handle_chat_member_update user cid t o n env now st).1 := by
  unfold handle_chat_member_update
  by_cases h1 : (isLeaving o && isActiveMember n) = true
  · by_cases h2 : toString user.id ∈ st.approved_users <;>
      rcases hw : send_welcome_message env with _ | m <;>
      simp only [h1, if_true] <;> simp [h2, hw] <;> exact fun k => h k
  · by_cases h2 : (wasMemberish o && isLeaving n) = true
    · simp [h1, h2]
      have h0 : globalMatchesSum
          ({ st with tracked_groups := addToSet cid st.tracked_groups }) :=
        fun k => h k
      exact fun k => (globalMatchesSum_update cid .total_left now _
        (globalMatchesSum_update cid .daily_left now _
          (globalMatchesSum_update cid .hourly_left now _
            (globalMatchesSum_get_or_create cid (chatTitleOf t cid) now _ h0)))) k
    · simp [h1, h2]
      exact fun k => h k

theorem globalMatchesSum_hourly (st : BotState) (h : globalMatchesSum st) :
    globalMatchesSum (send_hourly_stats st).1 := by
  unfold send_hourly_stats
  dsimp only
  split
  · exact h
  · intro k
    have hz : ∀ f : ChatStats → Nat, (∀ v, f (resetHourly v) = 0) →
        sumF f (st.channel_stats.map (fun p => (p.1, resetHourly p.2))) = 0 :=
      fun f hf => sumF_map_of_zero f resetHourly st.channel_stats hf
    have he : ∀ f : ChatStats → Nat, (∀ v, f (resetHourly v) = f v) →
        sumF f (st.channel_stats.map (fun p => (p.1, resetHourly p.2))) =
          sumF f st.channel_stats :=
      fun f hf => sumF_map_of_eq f resetHourly st.channel_stats hf
    rcases k
    case hourly_requests => exact (hz _ (fun v => rfl)).symm
    case hourly_left => exact (hz _ (fun v => rfl)).symm
    case daily_requests =>
      rw [he (chatField .daily_requests) (fun v => rfl)]
      exact h StatKey.daily_requests
    case daily_left =>
      rw [he (chatField .daily_left) (fun v => rfl)]
      exact h StatKey.daily_left
    case total_requests =>
      rw [he (chatField .total_requests) (fun v => rfl)]
      exact h StatKey.total_requests
    case total_approved =>
      rw [he (chatField .total_approved) (fun v => rfl)]
      exact h StatKey.total_approved
    case total_left =>
      rw [he (chatField .total_left) (fun v => rfl)]
      exact h StatKey.total_left

theorem globalMatchesSum_daily (st : BotState) (h : globalMatchesSum st) :
    globalMatchesSum (send_daily_stats st).1 := by
  unfold send_daily_stats
  intro k
  have hz : ∀ f : ChatStats → Nat, (∀ v, f (resetDaily v) = 0) →
      sumF f (st.channel_stats.map (fun p => (p.1, resetDaily p.2))) = 0 :=
    fun f hf => sumF_map_of_zero f resetDaily st.channel_stats hf
  have he : ∀ f : ChatStats → Nat, (∀ v, f (resetDaily v) = f v) →
      sumF f (st.channel_stats.map (fun p => (p.1, resetDaily p.2))) =
        sumF f st.channel_stats :=
    fun f hf => sumF_map_of_eq f resetDaily st.channel_stats hf
  rcases k
  case daily_requests => exact (hz _ (fun v => rfl)).symm
  case daily_left => exact (hz _ (fun v => rfl)).symm
  case hourly_requests =>
    rw [he (chatField .hourly_requests) (fun v => rfl)]
    exact h StatKey.hourly_requests
  case hourly_left =>
    rw [he (chatField .hourly_left) (fun v => rfl)]
    exact h StatKey.hourly_left
  case total_requests =>
    rw [he (chatField .total_requests) (fun v => rfl)]
    exact h StatKey.total_requests
  case total_approved =>
    rw [he (chatField .total_approved) (fun v => rfl)]
    exact h StatKey.total_approved
  case total_left =>
    rw [he (chatField .total_left) (fun v => rfl)]
    exact h StatKey.total_left

theorem globalMatchesSum_step (st : BotState) (e : Event)
    (h : globalMatchesSum st) : globalMatchesSum (step st e) := by
  cases e with
  | joinRequest u c t ty now => exact globalMatchesSum_join u c t ty now st h
  | timerFire u c ok now =>
    simp only [step]
    split
    · exact globalMatchesSum_auto u c ok now _ (fun k => h k)
    · exact h
  | memberUpdate u c t o n env now =>
    exact globalMatchesSum_member u c t o n env now st h
  | hourlyReport => exact globalMatchesSum_hourly st h
  | dailyReport => exact globalMatchesSum_daily st h

theorem globalMatchesSum_run (es : List Event) : globalMatchesSum (run es) := by
  suffices h : ∀ st, globalMatchesSum st → globalMatchesSum (es.foldl step st) from
    h initState globalMatchesSum_init
  induction es with
  | nil => exact fun st h => h
  | cons e rest ih => exact fun st h => ih _ (globalMatchesSum_step st e h)

/-! ### Further support lemmas -/

theorem mem_setEntry {κ α : Type} [DecidableEq κ] (k : κ) (v : α)
    (l : List (κ × α)) (x : κ × α) (h : x ∈ setEntry k v l) :
    x = (k, v) ∨ x ∈ l := by
  induction l with
  | nil => simpa [setEntry] using h
  | cons p rest ih =>
    by_cases h1 : p.1 = k
    · simp only [setEntry, h1, if_pos] at h
      rcases List.mem_cons.1 h with h2 | h2
      · left
        exact h2
      · right
        exact List.mem_cons_of_mem _ h2
    · simp only [setEntry, h1, if_neg, not_false_iff] at h
      rcases List.mem_cons.1 h with h2 | h2
      · right
        exact h2 ▸ List.mem_cons_self _ _
      · rcases ih h2 with h3 | h3
        · exact Or.inl h3
        · exact Or.inr (List.mem_cons_of_mem _ h3)

theorem mem_foldl_setEntry {κ α β : Type} [DecidableEq κ]
    (g : β → α) (l : List (κ × β)) (init : List (κ × α)) (x : κ × α)
    (h : x ∈ l.foldl (fun acc p => setEntry p.1 (g p.2) acc) init) :
    x ∈ init ∨ ∃ p ∈ l, x = (p.1, g p.2) := by
  induction l generalizing init with
  | nil => exact Or.inl h
  | cons p rest ih =>
    rcases ih (setEntry p.1 (g p.2) init) h with h1 | ⟨q, hq, hx⟩
    · rcases mem_setEntry _ _ _ _ h1 with h2 | h2
      · right
        exact ⟨p, List.mem_cons_self _ _, h2⟩
      · left
        exact h2
    · right
      exact ⟨q, List.mem_cons_of_mem _ hq, hx⟩

/-- The branches of the became-active path of `handle_chat_member_update`,
as state equations.  When `send_welcome_message` returns normally, the
user is removed from the marker and its message count is reported. -/
theorem member_welcome_ok_spec (user : UserData) (cid : String)
    (t : Option String) (o n : MemberStatus) (env : WelcomeEnv) (now : Nat)
    (st : BotState) (h1 : (isLeaving o && isActiveMember n) = true)
    (h2 : toString user.id ∈ st.approved_users)
    (m : Nat) (h3 : send_welcome_message env = some m) :
    handle_chat_member_update user cid t o n env now st =
      ({ st with tracked_groups := addToSet cid st.tracked_groups,
                 approved_users := removeFirst (toString user.id) st.approved_users },
       m) := by
  unfold handle_chat_member_update
  simp [h1, h2, h3]

/-- When `send_welcome_message` raises an uncaught exception, line 175
(`approved_users.remove`) is never reached: only the `tracked_groups`
insertion (line 166) has happened, the marker is kept, and no message
was delivered. -/
theorem member_welcome_raise_spec (user : UserData) (cid : String)
    (t : Option String) (o n : MemberStatus) (env : WelcomeEnv) (now : Nat)
    (st : BotState) (h1 : (isLeaving o && isActiveMember n) = true)
    (h2 : toString user.id ∈ st.approved_users)
    (h3 : send_welcome_message env = none) :
    handle_chat_member_update user cid t o n env now st =
      ({ st with tracked_groups := addToSet cid st.tracked_groups }, 0) := by
  unfold handle_chat_member_update
  simp [h1, h2, h3]

theorem member_no_welcome_spec (user : UserData) (cid : String)
    (t : Option String) (o n : MemberStatus) (env : WelcomeEnv) (now : Nat)
    (st : BotState) (h1 : (isLeaving o && isActiveMember n) = true)
    (h2 : toString user.id ∉ st.approved_users) :
    handle_chat_member_update user cid t o n env now st =
      ({ st with tracked_groups := addToSet cid st.tracked_groups }, 0) := by
  unfold handle_chat_member_update
  simp [h1, h2]

/-- `auto_approve_request` returns early (bot.py lines 124-126) when the
request is no longer pending: no approve call, no state change. -/
theorem auto_approve_pending_absent (u c : String) (ok : Bool) (now : Nat)
    (st : BotState) (h : lookupKey u st.pending_requests = none) :
    auto_approve_request u c ok now st = (st, 0) := by
  unfold auto_approve_request
  simp [h]

theorem allHourlyZero_sums (st : BotState) (h : allHourlyZero st = true) :
    sumF ChatStats.hourly_requests st.channel_stats = 0 ∧
    sumF ChatStats.hourly_left st.channel_stats = 0 := by
  unfold allHourlyZero at h
  rw [List.all_eq_true] at h
  constructor <;> rw [sumF_eq_zero_iff] <;> intro p hp <;>
    have h2 := h p hp <;> simp at h2
  · exact h2.1
  · exact h2.2

/-! ## Claims -/

/-- Concrete user for counterexamples and witnesses. -/
def cexUser : UserData :=
  { id := 100, first_name := "U", last_name := none, username := none }

def c1TraceOne : List Event :=
  [.joinRequest cexUser "1" (some "Alpha") .supergroup 0]

def c1TraceTwo : List Event :=
  [.joinRequest cexUser "1" (some "Alpha") .supergroup 0,
   .joinRequest cexUser "2" (some "Beta") .supergroup 1]

/-- C1 (counterexample): the pending-request table is NOT keyed by the pair
(userId, chatId).  After user 100 requests to join chat "1", the request
(100, "1") is pending; but recording a new join request by the same user
for the distinct chat "2" overwrites it — (100, "1") is no longer pending,
even though the two requests are for different chats.  The table is keyed
by userId alone (`self.pending_requests[user_id] = ...`, bot.py line 88). -/
theorem c1_counterexample :
    pendingPair (run c1TraceOne) "100" "1" = true ∧
    pendingPair (run c1TraceTwo) "100" "1" = false ∧
    pendingPair (run c1TraceTwo) "100" "2" = true := by decide

/-- C1 (amended): the pending-request table is keyed by userId alone: a
supported-chat join request by user U stores U's request (overwriting any
prior pending request of U, whatever its chat), and leaves every other
user's pending entry unchanged. -/
theorem c1_amended (user : UserData) (cid : String) (t : Option String)
    (ty : ChatType) (now : Nat) (st : BotState) (v : String)
    (hty : supportedChatType ty = true) (hv : v ≠ toString user.id) :
    lookupKey (toString user.id)
      (handle_chat_join_request user cid t ty now st).pending_requests =
      some { chat_id := cid, request_time := now, user_data := user } ∧
    lookupKey v (handle_chat_join_request user cid t ty now st).pending_requests =
      lookupKey v st.pending_requests := by
  have hp := (join_state_effects user cid t ty now st hty).1
  constructor
  · rw [hp, lookupKey_setEntry, if_pos rfl]
  · rw [hp, lookupKey_setEntry, if_neg (fun hh => hv hh.symm)]

/-- Witness for the amended C1 at a concrete input. -/
theorem c1_amended_witness :
    supportedChatType ChatType.supergroup = true ∧
    ("200" : String) ≠ toString cexUser.id ∧
    (lookupKey (toString cexUser.id)
      (handle_chat_join_request cexUser "2" (some "Beta") .supergroup 1
        (run c1TraceOne)).pending_requests =
      some { chat_id := "2", request_time := 1, user_data := cexUser } ∧
    lookupKey "200"
      (handle_chat_join_request cexUser "2" (some "Beta") .supergroup 1
        (run c1TraceOne)).pending_requests =
      lookupKey "200" (run c1TraceOne).pending_requests) :=
  ⟨by decide, by decide,
   c1_amended cexUser "2" (some "Beta") .supergroup 1 (run c1TraceOne) "200"
     (by decide) (by decide)⟩

def c2Trace : List Event :=
  [.joinRequest cexUser "1" (some "Alpha") .supergroup 0, .dailyReport]

def c2Env : List (String × List Int) := [("1", [42])]

/-- C2 (counterexample): suppression does not hold for the 8-hour window.
After one join request and one 8-hour report, every chat's period-window
counters are zero, yet triggering the 8-hour report again produces one
outbound report message (to the single reachable admin of the tracked
chat), not zero: `send_daily_stats` has no emptiness check. -/
theorem c2_counterexample :
    allDailyZero (run c2Trace) = true ∧
    dailyOutbound c2Env (run c2Trace) = 1 := by decide

/-- C2 (amended): only the hourly report is suppressed: when every chat's
hourly-window counters are zero, triggering the hourly report produces no
report and no outbound messages and leaves the state unchanged.  (The
8-hour report is produced unconditionally — see the counterexample.) -/
theorem c2_amended (st : BotState) (env : List (String × List Int))
    (h : allHourlyZero st = true) :
    send_hourly_stats st = (st, none) ∧ hourlyOutbound env st = 0 := by
  have hz := allHourlyZero_sums st h
  have h2 : send_hourly_stats st = (st, none) := by
    unfold send_hourly_stats
    dsimp only
    rw [if_pos ⟨hz.1, hz.2⟩]
  refine ⟨h2, ?_⟩
  unfold hourlyOutbound
  rw [h2]

def c2HourlyTrace : List Event :=
  [.joinRequest cexUser "1" (some "Alpha") .supergroup 0, .hourlyReport]

/-- Witness for the amended C2 at a concrete input. -/
theorem c2_amended_witness :
    allHourlyZero (run c2HourlyTrace) = true ∧
    (send_hourly_stats (run c2HourlyTrace) = (run c2HourlyTrace, none) ∧
     hourlyOutbound c2Env (run c2HourlyTrace) = 0) :=
  ⟨by decide, c2_amended (run c2HourlyTrace) c2Env (by decide)⟩

/-- Snapshot entry with a missing `hourly_requests` counter and an invalid
`last_activity` string. -/
def c3RawMissing : RawChatStats :=
  { title := some "Alpha", hourly_requests := none, hourly_left := some 2,
    daily_requests := some 3, daily_left := some 4, total_requests := some 5,
    total_approved := some 6, total_left := some 7, last_activity := some none }

def c3Snap : RawSnapshot :=
  { channel_stats := some [("1", c3RawMissing)],
    global_stats := some defaultRawGlobalStats,
    tracked_groups := some ["1"] }

/-- C3 (counterexample): loading does NOT substitute empty defaults for
missing counter fields.  A parsed snapshot whose per-chat entry lacks
`hourly_requests` is loaded verbatim (only `last_activity` is fixed up),
so after loading the entry still has no `hourly_requests` counter. -/
theorem c3_counterexample :
    lookupKey "1"
      (load_stats_from_file (some (some c3Snap)) 5 initLoadedStore).channel_stats =
      some (fixLastActivity 5 c3RawMissing) ∧
    hasAllCounterFields (fixLastActivity 5 c3RawMissing) = false := by decide

/-- C3 (amended): loading the snapshot never fails startup — on a missing
or unreadable file every store field keeps its empty `__init__` value —
but per-chat entries are loaded verbatim: every loaded entry comes from a
raw snapshot entry with identical title and counter fields (present or
missing); only an invalid `last_activity` is replaced.  No empty defaults
are substituted for missing counter fields. -/
theorem c3_amended (now : Nat) (snap : RawSnapshot) (k : String)
    (r : RawChatStats)
    (hmem : (k, r) ∈
      (load_stats_from_file (some (some snap)) now initLoadedStore).channel_stats) :
    load_stats_from_file none now initLoadedStore = initLoadedStore ∧
    load_stats_from_file (some none) now initLoadedStore = initLoadedStore ∧
    ∃ r0, (k, r0) ∈ snap.channel_stats.getD [] ∧
      r.title = r0.title ∧ r.hourly_requests = r0.hourly_requests ∧
      r.hourly_left = r0.hourly_left ∧ r.daily_requests = r0.daily_requests ∧
      r.daily_left = r0.daily_left ∧ r.total_requests = r0.total_requests ∧
      r.total_approved = r0.total_approved ∧ r.total_left = r0.total_left := by
  refine ⟨rfl, rfl, ?_⟩
  unfold load_stats_from_file at hmem
  rcases mem_foldl_setEntry (fixLastActivity now) (snap.channel_stats.getD [])
      initLoadedStore.channel_stats (k, r) hmem with h1 | ⟨p, hp, hx⟩
  · simp [initLoadedStore] at h1
  · have hk : k = p.1 := congrArg Prod.fst hx
    have hr : r = fixLastActivity now p.2 := congrArg Prod.snd hx
    subst hk
    subst hr
    exact ⟨p.2, by simpa using hp, rfl, rfl, rfl, rfl, rfl, rfl, rfl, rfl⟩

/-- Witness for the amended C3 at a concrete input. -/
theorem c3_amended_witness :
    (("1", fixLastActivity 5 c3RawMissing) ∈
      (load_stats_from_file (some (some c3Snap)) 5 initLoadedStore).channel_stats) ∧
    (load_stats_from_file none 5 initLoadedStore = initLoadedStore ∧
     load_stats_from_file (some none) 5 initLoadedStore = initLoadedStore ∧
     ∃ r0, ("1", r0) ∈ c3Snap.channel_stats.getD [] ∧
       (fixLastActivity 5 c3RawMissing).title = r0.title ∧
       (fixLastActivity 5 c3RawMissing).hourly_requests = r0.hourly_requests ∧
       (fixLastActivity 5 c3RawMissing).hourly_left = r0.hourly_left ∧
       (fixLastActivity 5 c3RawMissing).daily_requests = r0.daily_requests ∧
       (fixLastActivity 5 c3RawMissing).daily_left = r0.daily_left ∧
       (fixLastActivity 5 c3RawMissing).total_requests = r0.total_requests ∧
       (fixLastActivity 5 c3RawMissing).total_approved = r0.total_approved ∧
       (fixLastActivity 5 c3RawMissing).total_left = r0.total_left) :=
  ⟨by decide, c3_amended 5 c3Snap "1" (fixLastActivity 5 c3RawMissing) (by decide)⟩

/-- C4: starting from the empty store, after any sequence of join-request
events, approval-timer firings (successful or failed), membership-change
events and rolling resets, every chat's lifetime counters satisfy
`total_requests ≥ total_approved`, and `total_requests`, `total_approved`
and `total_left` are all ≥ 0. -/
theorem c4_lifetime_invariant (es : List Event) (c : String) :
    statTotalApproved (run es) c ≤ statTotalRequests (run es) c ∧
    0 ≤ statTotalRequests (run es) c ∧ 0 ≤ statTotalApproved (run es) c ∧
    0 ≤ statTotalLeft (run es) c := by
  refine ⟨?_, Nat.zero_le _, Nat.zero_le _, Nat.zero_le _⟩
  have h := approvalBudget_run es c
  rw [statTotalApproved_eq, statTotalRequests_eq]
  omega

/-- C5: firing the approval timer twice for the same (userId, chatId),
with the two firings processed sequentially, calls the platform approve
operation at most once in total and increments the chat's and the global
approved counter at most once; after the first firing the pending entry
is absent, and the second firing observes this and changes no state
(returning the state unchanged with zero approve calls).  The hypothesis
states that the pending table — a Python dict — has no duplicate keys. -/
theorem c5_timer_idempotent (u c : String) (ok1 ok2 : Bool) (n1 n2 : Nat)
    (st : BotState)
    (hnd : (st.pending_requests.map Prod.fst).Nodup) :
    (auto_approve_request u c ok1 n1 st).2 +
      (auto_approve_request u c ok2 n2 (auto_approve_request u c ok1 n1 st).1).2 ≤ 1 ∧
    lookupKey u (auto_approve_request u c ok1 n1 st).1.pending_requests = none ∧
    auto_approve_request u c ok2 n2 (auto_approve_request u c ok1 n1 st).1 =
      ((auto_approve_request u c ok1 n1 st).1, 0) ∧
    (∀ c', statField .total_approved
        (auto_approve_request u c ok2 n2 (auto_approve_request u c ok1 n1 st).1).1 c' ≤
      statField .total_approved st c' + 1) ∧
    globalField .total_approved
        (auto_approve_request u c ok2 n2
          (auto_approve_request u c ok1 n1 st).1).1.global_stats ≤
      globalField .total_approved st.global_stats + 1 := by
  have hs := auto_approve_spec u c ok1 n1 st
  have habs : lookupKey u (auto_approve_request u c ok1 n1 st).1.pending_requests = none := by
    rw [hs.1]
    rcases hl : lookupKey u st.pending_requests with _ | e
    · rw [if_neg (by simp [hl])]
      exact hl
    · rw [if_pos (by simp [hl])]
      exact lookupKey_removeKey_self u st.pending_requests hnd
  have hsecond := auto_approve_pending_absent u c ok2 n2 _ habs
  refine ⟨?_, habs, hsecond, ?_, ?_⟩
  · simp only [hsecond, hs.2.2.2.2.2.2]
    split <;> omega
  · intro c'
    have h1 := statField_auto_approve u c ok1 n1 st .total_approved c'
    rw [congrArg Prod.fst hsecond, h1]
    split <;> omega
  · rw [congrArg Prod.fst hsecond, hs.2.2.2.1]
    by_cases hcond : (lookupKey u st.pending_requests).isSome = true ∧ ok1 = true
    · rw [if_pos hcond, global_update_channel]
      split
      · rw [globalField_bumpGlobal]
        simp
      · omega
    · rw [if_neg hcond]
      omega

/-- Witness for C5 at a concrete input: one pending request, both timer
firings with a successful platform call. -/
theorem c5_witness :
    ((run c1TraceOne).pending_requests.map Prod.fst).Nodup ∧
    ((auto_approve_request "100" "1" true 2 (run c1TraceOne)).2 +
      (auto_approve_request "100" "1" true 3
        (auto_approve_request "100" "1" true 2 (run c1TraceOne)).1).2 ≤ 1 ∧
    lookupKey "100"
      (auto_approve_request "100" "1" true 2 (run c1TraceOne)).1.pending_requests = none ∧
    auto_approve_request "100" "1" true 3
        (auto_approve_request "100" "1" true 2 (run c1TraceOne)).1 =
      ((auto_approve_request "100" "1" true 2 (run c1TraceOne)).1, 0) ∧
    (∀ c', statField .total_approved
        (auto_approve_request "100" "1" true 3
          (auto_approve_request "100" "1" true 2 (run c1TraceOne)).1).1 c' ≤
      statField .total_approved (run c1TraceOne) c' + 1) ∧
    globalField .total_approved
        (auto_approve_request "100" "1" true 3
          (auto_approve_request "100" "1" true 2 (run c1TraceOne)).1).1.global_stats ≤
      globalField .total_approved (run c1TraceOne).global_stats + 1) :=
  ⟨by decide,
   c5_timer_idempotent "100" "1" true true 2 3 (run c1TraceOne) (by decide)⟩

/-- C6: when the approval timer fires for a user with a pending entry and
the platform approve call fails, the pending entry for that user is
removed, the per-chat and global `total_approved` counters are unchanged
(all chat stats and the whole global aggregate are unchanged), and the
userId is not added to the approved-users marker set. -/
theorem c6_approve_failure (u c : String) (now : Nat) (st : BotState)
    (e : PendingEntry) (h : lookupKey u st.pending_requests = some e)
    (hnd : (st.pending_requests.map Prod.fst).Nodup) :
    (auto_approve_request u c false now st).1.pending_requests =
      removeKey u st.pending_requests ∧
    lookupKey u (auto_approve_request u c false now st).1.pending_requests = none ∧
    (auto_approve_request u c false now st).1.channel_stats = st.channel_stats ∧
    (auto_approve_request u c false now st).1.global_stats = st.global_stats ∧
    (auto_approve_request u c false now st).1.approved_users = st.approved_users := by
  have hs := auto_approve_spec u c false now st
  have hp : (lookupKey u st.pending_requests).isSome = true := by simp [h]
  refine ⟨?_, ?_, ?_, ?_, ?_⟩
  · rw [hs.1, if_pos hp]
  · rw [hs.1, if_pos hp]
    exact lookupKey_removeKey_self u st.pending_requests hnd
  · rw [hs.2.2.1, if_neg (by simp)]
  · rw [hs.2.2.2.1, if_neg (by simp)]
  · rw [hs.2.1, if_neg (by simp)]

/-- Witness for C6 at a concrete input. -/
theorem c6_witness :
    lookupKey "100" (run c1TraceOne).pending_requests =
      some { chat_id := "1", request_time := 0, user_data := cexUser } ∧
    ((run c1TraceOne).pending_requests.map Prod.fst).Nodup ∧
    ((auto_approve_request "100" "1" false 2 (run c1TraceOne)).1.pending_requests =
      removeKey "100" (run c1TraceOne).pending_requests ∧
    lookupKey "100"
      (auto_approve_request "100" "1" false 2 (run c1TraceOne)).1.pending_requests = none ∧
    (auto_approve_request "100" "1" false 2 (run c1TraceOne)).1.channel_stats =
      (run c1TraceOne).channel_stats ∧
    (auto_approve_request "100" "1" false 2 (run c1TraceOne)).1.global_stats =
      (run c1TraceOne).global_stats ∧
    (auto_approve_request "100" "1" false 2 (run c1TraceOne)).1.approved_users =
      (run c1TraceOne).approved_users) :=
  ⟨by decide, by decide,
   c6_approve_failure "100" "1" 2 (run c1TraceOne)
     { chat_id := "1", request_time := 0, user_data := cexUser }
     (by decide) (by decide)⟩

/-- C7: for every counter key shared by the global aggregate and the
per-chat stats (`hourly_requests`, `hourly_left`, `daily_requests`,
`daily_left`, `total_requests`, `total_approved`, `total_left`), after
any sequence of events starting from the empty store, the global counter
equals the sum of that counter over all chats. -/
theorem c7_global_aggregate (es : List Event) (k : StatKey) :
    globalField k (run es).global_stats =
      sumF (chatField k) (run es).channel_stats :=
  globalMatchesSum_run es k

/-- C8: the hourly report's reset zeroes only the hourly-window counters
of every chat and of the global aggregate (whenever a report is actually
produced), and the 8-hour report's reset zeroes only the period-window
counters; neither report changes a chat's lifetime counters, its title,
or the other window's counters, in the chats or in the global aggregate. -/
theorem c8_report_frame (st : BotState) :
    (∀ c, (lookupKey c (send_hourly_stats st).1.channel_stats).map hourlyFrame =
      (lookupKey c st.channel_stats).map hourlyFrame) ∧
    (send_hourly_stats st).1.global_stats.daily_requests = st.global_stats.daily_requests ∧
    (send_hourly_stats st).1.global_stats.daily_left = st.global_stats.daily_left ∧
    (send_hourly_stats st).1.global_stats.total_requests = st.global_stats.total_requests ∧
    (send_hourly_stats st).1.global_stats.total_approved = st.global_stats.total_approved ∧
    (send_hourly_stats st).1.global_stats.total_left = st.global_stats.total_left ∧
    ((send_hourly_stats st).2.isSome = true →
      (∀ c e, lookupKey c (send_hourly_stats st).1.channel_stats = some e →
        e.hourly_requests = 0 ∧ e.hourly_left = 0) ∧
      (send_hourly_stats st).1.global_stats.hourly_requests = 0 ∧
      (send_hourly_stats st).1.global_stats.hourly_left = 0) ∧
    (∀ c, (lookupKey c (send_daily_stats st).1.channel_stats).map dailyFrame =
      (lookupKey c st.channel_stats).map dailyFrame) ∧
    (send_daily_stats st).1.global_stats.hourly_requests = st.global_stats.hourly_requests ∧
    (send_daily_stats st).1.global_stats.hourly_left = st.global_stats.hourly_left ∧
    (send_daily_stats st).1.global_stats.total_requests = st.global_stats.total_requests ∧
    (send_daily_stats st).1.global_stats.total_approved = st.global_stats.total_approved ∧
    (send_daily_stats st).1.global_stats.total_left = st.global_stats.total_left ∧
    (∀ c e, lookupKey c (send_daily_stats st).1.channel_stats = some e →
      e.daily_requests = 0 ∧ e.daily_left = 0) ∧
    (send_daily_stats st).1.global_stats.daily_requests = 0 ∧
    (send_daily_stats st).1.global_stats.daily_left = 0 := by
  rcases hH : send_hourly_stats st with ⟨s1, rep⟩
  rcases hD : send_daily_stats st with ⟨s2, rep2⟩
  simp only [hH, hD]
  unfold send_hourly_stats at hH
  dsimp only at hH
  unfold send_daily_stats at hD
  injection hD with hD1 hD2
  subst hD1
  have dailyFacts :
      (∀ c, (lookupKey c (st.channel_stats.map (fun p => (p.1, resetDaily p.2)))).map dailyFrame =
        (lookupKey c st.channel_stats).map dailyFrame) ∧
      (∀ c e, lookupKey c (st.channel_stats.map (fun p => (p.1, resetDaily p.2))) = some e →
        e.daily_requests = 0 ∧ e.daily_left = 0) := by
    constructor
    · intro c
      rw [lookupKey_map_snd]
      rcases lookupKey c st.channel_stats with _ | v <;> rfl
    · intro c e he
      rw [lookupKey_map_snd] at he
      rcases hl : lookupKey c st.channel_stats with _ | v <;> rw [hl] at he
      · simp at he
      · simp at he
        subst he
        exact ⟨rfl, rfl⟩
  split at hH
  · injection hH with h1 h2
    subst h1
    subst h2
    refine ⟨fun c => rfl, rfl, rfl, rfl, rfl, rfl, ?_, dailyFacts.1, rfl, rfl, rfl,
      rfl, rfl, dailyFacts.2, rfl, rfl⟩
    intro hfalse
    simp at hfalse
  · injection hH with h1 h2
    subst h1
    subst h2
    refine ⟨?_, rfl, rfl, rfl, rfl, rfl, ?_, dailyFacts.1, rfl, rfl, rfl,
      rfl, rfl, dailyFacts.2, rfl, rfl⟩
    · intro c
      rw [lookupKey_map_snd]
      rcases lookupKey c st.channel_stats with _ | v <;> rfl
    · intro _
      refine ⟨?_, rfl, rfl⟩
      intro c e he
      rw [lookupKey_map_snd] at he
      rcases hl : lookupKey c st.channel_stats with _ | v <;> rw [hl] at he
      · simp at he
      · simp at he
        subst he
        exact ⟨rfl, rfl⟩

/-- The chat entry of `run c1TraceOne` after the 8-hour reset. -/
def c8DailyEntry : ChatStats :=
  { title := "Alpha", hourly_requests := 1, hourly_left := 0,
    daily_requests := 0, daily_left := 0, total_requests := 1,
    total_approved := 0, total_left := 0, last_activity := 0 }

/-- Witness for C8 at a concrete input: a state with one nonzero hourly
and period window, so that the hourly report is actually produced. -/
theorem c8_witness :
    (send_hourly_stats (run c1TraceOne)).2.isSome = true ∧
    lookupKey "1" (send_daily_stats (run c1TraceOne)).1.channel_stats =
      some c8DailyEntry ∧
    ((send_hourly_stats (run c1TraceOne)).1.global_stats.hourly_requests = 0 ∧
     (send_hourly_stats (run c1TraceOne)).1.global_stats.hourly_left = 0) ∧
    (c8DailyEntry.daily_requests = 0 ∧ c8DailyEntry.daily_left = 0) ∧
    (send_daily_stats (run c1TraceOne)).1.global_stats.total_requests =
      (run c1TraceOne).global_stats.total_requests :=
  ⟨by decide, by decide,
   ⟨(((c8_report_frame (run c1TraceOne)).2.2.2.2.2.2.1 (by decide)).2.1),
    (((c8_report_frame (run c1TraceOne)).2.2.2.2.2.2.1 (by decide)).2.2)⟩,
   (c8_report_frame (run c1TraceOne)).2.2.2.2.2.2.2.2.2.2.2.2.2.1 "1"
     c8DailyEntry (by decide),
   (c8_report_frame (run c1TraceOne)).2.2.2.2.2.2.2.2.2.2.1⟩

/-- C9: a membership-change event from left/kicked to one of
member/administrator/owner for a user in the approved marker delivers
exactly one welcome message (under a send environment where the
permission check reports send rights and the formatted send succeeds)
and removes the user from the marker; processing the same event again,
with the user no longer in the marker, delivers zero welcome messages. -/
theorem c9_welcome_once (user : UserData) (cid : String) (t : Option String)
    (o n : MemberStatus) (env : WelcomeEnv) (now now2 : Nat) (st : BotState)
    (ho : isLeaving o = true) (hn : isActiveMember n = true)
    (hmem : toString user.id ∈ st.approved_users)
    (hnd : st.approved_users.Nodup)
    (hperm : env.perm_check = .ok true)
    (hfmt : env.formatted_send = .ok ()) :
    (handle_chat_member_update user cid t o n env now st).2 = 1 ∧
    toString user.id ∉
      (handle_chat_member_update user cid t o n env now st).1.approved_users ∧
    (handle_chat_member_update user cid t o n env now2
      (handle_chat_member_update user cid t o n env now st).1).2 = 0 := by
  have h1 : (isLeaving o && isActiveMember n) = true := by simp [ho, hn]
  have h3 : send_welcome_message env = some 1 := by
    simp [send_welcome_message, hperm, hfmt]
  have hspec := member_welcome_ok_spec user cid t o n env now st h1 hmem 1 h3
  have hnot : toString user.id ∉ removeFirst (toString user.id) st.approved_users :=
    mem_removeFirst_of_nodup _ _ hnd
  refine ⟨?_, ?_, ?_⟩
  · rw [hspec]
  · rw [hspec]
    exact hnot
  · rw [hspec, member_no_welcome_spec user cid t o n env now2 _ h1 hnot]

def envHappy : WelcomeEnv :=
  { perm_check := .ok true, formatted_send := .ok (), fallback_send_ok := true }

/-- State with user 100 approved and awaiting confirmed membership. -/
def c9State : BotState :=
  (auto_approve_request "100" "1" true 2 (run c1TraceOne)).1

/-- Witness for C9 at a concrete input. -/
theorem c9_witness :
    isLeaving MemberStatus.leftChat = true ∧
    isActiveMember MemberStatus.member = true ∧
    toString cexUser.id ∈ c9State.approved_users ∧
    c9State.approved_users.Nodup ∧
    envHappy.perm_check = .ok true ∧
    envHappy.formatted_send = .ok () ∧
    ((handle_chat_member_update cexUser "1" (some "Alpha") .leftChat .member
        envHappy 3 c9State).2 = 1 ∧
     toString cexUser.id ∉ (handle_chat_member_update cexUser "1" (some "Alpha")
        .leftChat .member envHappy 3 c9State).1.approved_users ∧
     (handle_chat_member_update cexUser "1" (some "Alpha") .leftChat .member
        envHappy 4 (handle_chat_member_update cexUser "1" (some "Alpha")
          .leftChat .member envHappy 3 c9State).1).2 = 0) :=
  ⟨by decide, by decide, by decide, by decide, by decide, by decide,
   c9_welcome_once cexUser "1" (some "Alpha") .leftChat .member envHappy 3 4
     c9State (by decide) (by decide) (by decide) (by decide) (by decide)
     (by decide)⟩

/-- Environment in which the permission check (`get_chat_member`) raises
an exception other than `BadRequest`/`Forbidden` — e.g. `TimedOut` —
which bot.py line 202 does not catch. -/
def envTimeout : WelcomeEnv :=
  { perm_check := .uncaughtError, formatted_send := .ok (),
    fallback_send_ok := true }

/-- Environment in which the permission check raises `BadRequest` or
`Forbidden`, which is caught: `send_welcome_message` returns normally
having delivered nothing. -/
def envCaught : WelcomeEnv :=
  { perm_check := .badRequestOrForbidden, formatted_send := .ok (),
    fallback_send_ok := false }

/-- C10 (counterexample): the marker is NOT consumed unconditionally.
With user 100 in the approved marker, a left→member event whose
permission check raises `TimedOut` (uncaught by line 202) propagates
before `approved_users.remove` (line 175): after the event the marker
still contains the user — contradicting the claim for its own
"permission check itself fails" mode — and a later identical event
under a working environment does deliver a welcome for that approval. -/
theorem c10_counterexample :
    toString cexUser.id ∈ c9State.approved_users ∧
    (handle_chat_member_update cexUser "1" (some "Alpha") .leftChat .member
      envTimeout 3 c9State).1.approved_users = c9State.approved_users ∧
    toString cexUser.id ∈ (handle_chat_member_update cexUser "1" (some "Alpha")
      .leftChat .member envTimeout 3 c9State).1.approved_users ∧
    (handle_chat_member_update cexUser "1" (some "Alpha") .leftChat .member
      envHappy 4
      (handle_chat_member_update cexUser "1" (some "Alpha") .leftChat .member
        envTimeout 3 c9State).1).2 = 1 := by decide

/-- C10 (amended): when a membership-became-active event is processed for
a user in the approved marker, the marker is consumed exactly when
`send_welcome_message` returns normally — which covers every failure mode
whose exception is caught (no send right, permission check or Markdown
send raising `BadRequest`/`Forbidden`, fallback failing with anything),
even though no message was delivered; after that no later identical
event delivers a welcome.  But when the permission check or the Markdown
send raises an uncaught exception (e.g. `TimedOut`), it propagates
before the removal and the marker is kept. -/
theorem c10_amended (user : UserData) (cid : String) (t : Option String)
    (o n : MemberStatus) (env env2 : WelcomeEnv) (now now2 : Nat)
    (st : BotState)
    (ho : isLeaving o = true) (hn : isActiveMember n = true)
    (hmem : toString user.id ∈ st.approved_users)
    (hnd : st.approved_users.Nodup) :
    (∀ m, send_welcome_message env = some m →
      (handle_chat_member_update user cid t o n env now st).1.approved_users =
        removeFirst (toString user.id) st.approved_users ∧
      toString user.id ∉
        (handle_chat_member_update user cid t o n env now st).1.approved_users ∧
      (handle_chat_member_update user cid t o n env2 now2
        (handle_chat_member_update user cid t o n env now st).1).2 = 0) ∧
    (send_welcome_message env = none →
      (handle_chat_member_update user cid t o n env now st).1.approved_users =
        st.approved_users ∧
      toString user.id ∈
        (handle_chat_member_update user cid t o n env now st).1.approved_users) := by
  have h1 : (isLeaving o && isActiveMember n) = true := by simp [ho, hn]
  have hnot : toString user.id ∉ removeFirst (toString user.id) st.approved_users :=
    mem_removeFirst_of_nodup _ _ hnd
  constructor
  · intro m h3
    have hspec := member_welcome_ok_spec user cid t o n env now st h1 hmem m h3
    refine ⟨?_, ?_, ?_⟩
    · rw [hspec]
    · rw [hspec]
      exact hnot
    · rw [hspec, member_no_welcome_spec user cid t o n env2 now2 _ h1 hnot]
  · intro h3
    have hspec := member_welcome_raise_spec user cid t o n env now st h1 hmem h3
    exact ⟨by rw [hspec], by rw [hspec]; exact hmem⟩

/-- Witness for the amended C10 at concrete inputs: a caught permission
failure (marker consumed with zero messages delivered) and an uncaught
one (marker kept). -/
theorem c10_amended_witness :
    isLeaving MemberStatus.kicked = true ∧
    isActiveMember MemberStatus.administrator = true ∧
    toString cexUser.id ∈ c9State.approved_users ∧
    c9State.approved_users.Nodup ∧
    send_welcome_message envCaught = some 0 ∧
    send_welcome_message envTimeout = none ∧
    ((handle_chat_member_update cexUser "1" (some "Alpha") .kicked
        .administrator envCaught 3 c9State).1.approved_users =
      removeFirst (toString cexUser.id) c9State.approved_users ∧
     toString cexUser.id ∉ (handle_chat_member_update cexUser "1" (some "Alpha")
        .kicked .administrator envCaught 3 c9State).1.approved_users ∧
     (handle_chat_member_update cexUser "1" (some "Alpha") .kicked
        .administrator envCaught 4
        (handle_chat_member_update cexUser "1" (some "Alpha") .kicked
          .administrator envCaught 3 c9State).1).2 = 0) ∧
    ((handle_chat_member_update cexUser "1" (some "Alpha") .kicked
        .administrator envTimeout 3 c9State).1.approved_users =
      c9State.approved_users ∧
     toString cexUser.id ∈ (handle_chat_member_update cexUser "1" (some "Alpha")
        .kicked .administrator envTimeout 3 c9State).1.approved_users) :=
  ⟨by decide, by decide, by decide, by decide, by decide, by decide,
   (c10_amended cexUser "1" (some "Alpha") .kicked .administrator envCaught
     envCaught 3 4 c9State (by decide) (by decide) (by decide) (by decide)).1
     0 (by decide),
   (c10_amended cexUser "1" (some "Alpha") .kicked .administrator envTimeout
     envTimeout 3 4 c9State (by decide) (by decide) (by decide) (by decide)).2
     (by decide)⟩

end Minibot
